import Mathlib

/-!
Verification development for the EDP_APP PDF viewer
(src/src/components/pdf/PDFViewer.jsx).

The component is embedded shallowly:
* JavaScript numbers that hold geometry, scales and ids are modelled as
  rationals; page counts and page numbers as integers.
* React state cells of the component become the fields of a Session record,
  and every event handler becomes a pure function from Session (plus the
  event's external inputs) to Session.
* Browser inputs (the text selection, the container bounding rectangle,
  Date.now and Math.random) are explicit arguments.
* The pdf-lib document-editing capability used by savePDF is modelled as a
  record of fallible operations returning Except, and the drawing calls
  issued by the export loop are reified as a list of draw commands.
-/

namespace EDP

/-- A DOMRect-style rectangle: x, y, width, height, as produced by
getBoundingClientRect and stored in a highlight's position field. -/
structure Rect where
  x : ℚ
  y : ℚ
  width : ℚ
  height : ℚ
  deriving DecidableEq, Repr

/-- The highlight record built in handleTextSelect (PDFViewer.jsx lines
146-157): id is Date.now() + Math.random(), text the trimmed selection,
pageNumber the page state at capture time, color the current picker color,
position the container-relative rectangle. -/
structure Highlight where
  id : ℚ
  text : String
  pageNumber : ℤ
  color : String
  position : Rect
  deriving DecidableEq, Repr

/-- The selection data handleTextSelect reads from window.getSelection():
the raw selected string, the range count, and the bounding rectangle of the
first range. -/
structure SelectionInput where
  rawText : String
  rangeCount : ℕ
  rect : Rect
  deriving DecidableEq, Repr

/-- The component's state cells (PDFViewer.jsx lines 28-40): file and
pdfBytes are null before a load, numPages is null until a document load
succeeds.  The error cell is never written by the component and is omitted. -/
structure Session where
  file : Option String
  numPages : Option ℤ
  pageNumber : ℤ
  scale : ℚ
  highlights : List Highlight
  isSelecting : Bool
  selectedText : String
  highlightColor : String
  pdfBytes : Option (List ℕ)
  deriving DecidableEq, Repr

/-- The initial state of the component (useState initialisers). -/
def initialSession : Session :=
  { file := none
    numPages := none
    pageNumber := 1
    scale := 1
    highlights := []
    isSelecting := false
    selectedText := ""
    highlightColor := "#FFFF00"
    pdfBytes := none }

/-- Whitespace test used by the model of the JavaScript String trim. -/
def isWs (c : Char) : Bool := c.isWhitespace

/-- Model of JavaScript String.prototype.trim: drop whitespace from both
ends of the character sequence (rdropWhile removes the trailing run). -/
def jsTrim (s : String) : String :=
  String.mk (List.rdropWhile isWs (List.dropWhile isWs s.data))

/-- The id expression of a new highlight: Date.now() + Math.random()
(PDFViewer.jsx line 147), with the millisecond clock reading and the random
draw as explicit inputs. -/
def freshId (now : ℕ) (rand : ℚ) : ℚ := (now : ℚ) + rand

/-- The position stored by handleTextSelect (PDFViewer.jsx lines 151-156):
subtract the container origin from the selection rectangle and clamp x and
y at 0; width and height are taken over unchanged.  Note that no field is
divided by the current scale. -/
def capturedPosition (rect containerRect : Rect) : Rect :=
  { x := max 0 (rect.x - containerRect.x)
    y := max 0 (rect.y - containerRect.y)
    width := rect.width
    height := rect.height }

/-- The transform the spec describes for toPageSpace, written from the
spec's words for comparison with capturedPosition: subtract the container
origin, divide all four fields by the scale, clamp the resulting x and y
at 0. -/
def toPageSpaceSpec (rect containerRect : Rect) (scale : ℚ) : Rect :=
  { x := max 0 ((rect.x - containerRect.x) / scale)
    y := max 0 ((rect.y - containerRect.y) / scale)
    width := rect.width / scale
    height := rect.height / scale }

/-- The overlay projection (PDFViewer.jsx lines 408-412): every field of the
stored position is multiplied by the current scale to produce the on-screen
style of the highlight div. -/
def overlayRect (position : Rect) (scale : ℚ) : Rect :=
  { x := position.x * scale
    y := position.y * scale
    width := position.width * scale
    height := position.height * scale }

/-- onFileChange (PDFViewer.jsx lines 80-102): when the chosen file has the
PDF content type, the file and its bytes are stored; otherwise nothing
changes.  No other state cell is written -- in particular highlights are
not cleared. -/
def onFileChange (s : Session) (name : String) (typeIsPdf : Bool)
    (bytes : List ℕ) : Session :=
  if typeIsPdf then { s with file := some name, pdfBytes := some bytes } else s

/-- onDocumentLoadSuccess (PDFViewer.jsx lines 104-107): record the page
count and reset the current page to 1. -/
def onDocumentLoadSuccess (s : Session) (pages : ℤ) : Session :=
  { s with numPages := some pages, pageNumber := 1 }

/-- A successful file load: onFileChange on a PDF file followed by the
document load success callback. -/
def loadFile (s : Session) (name : String) (bytes : List ℕ) (pages : ℤ) :
    Session :=
  onDocumentLoadSuccess (onFileChange s name true bytes) pages

/-- changePage (PDFViewer.jsx lines 109-114): clamp the offset target with
Math.min(Math.max(1, newPage), numPages).  A null numPages is coerced to 0
by Math.min in JavaScript, hence getD 0; the navigation buttons only render
once a document is loaded. -/
def changePage (s : Session) (offset : ℤ) : Session :=
  { s with pageNumber := min (max 1 (s.pageNumber + offset)) (s.numPages.getD 0) }

/-- zoomIn (PDFViewer.jsx line 119): add 0.2 and clamp at 3.0. -/
def zoomIn (s : ℚ) : ℚ := min (s + 1/5) 3

/-- zoomOut (PDFViewer.jsx line 120): subtract 0.2 and clamp at 0.5. -/
def zoomOut (s : ℚ) : ℚ := max (s - 1/5) (1/2)

/-- toggleHighlightMode (PDFViewer.jsx lines 167-174). -/
def toggleHighlightMode (s : Session) : Session :=
  { s with isSelecting := !s.isSelecting }

/-- handleTextSelect (PDFViewer.jsx lines 123-165), with the browser
selection, the container rectangle and the id inputs passed explicitly.
Each early return of the source is a branch yielding the unchanged state;
the success branch appends the new highlight and records the selected
text. -/
def handleTextSelect (s : Session) (sel : SelectionInput)
    (container : Option Rect) (now : ℕ) (rand : ℚ) : Session :=
  if s.isSelecting = false then s
  else
    let text := jsTrim sel.rawText
    if text = "" then s
    else if sel.rangeCount = 0 then s
    else
      match container with
      | none => s
      | some containerRect =>
        if sel.rect.width < 5 ∨ sel.rect.height < 5 then s
        else
          let h : Highlight :=
            { id := freshId now rand
              text := text
              pageNumber := s.pageNumber
              color := s.highlightColor
              position := capturedPosition sel.rect containerRect }
          { s with highlights := s.highlights ++ [h], selectedText := text }

/-- removeHighlight (PDFViewer.jsx lines 250-253): keep exactly the
highlights whose id differs from the given one. -/
def removeHighlight (s : Session) (id : ℚ) : Session :=
  { s with highlights := s.highlights.filter (fun h => decide (h.id ≠ id)) }

/-- The sidebar click handler (PDFViewer.jsx lines 445-453): set the page
state to the highlight's page number (the scroll-into-view call is an
external effect).  No clamping is applied. -/
def navigateToHighlight (s : Session) (h : Highlight) : Session :=
  { s with pageNumber := h.pageNumber }

/-- A drawing call issued by the export loop against a page of the editable
document.  The rectangle command carries the highlight's color string as
is (the source converts it to normalized RGB channels before the call; no
claim depends on the channel arithmetic).  The text command draws in black
at the given size. -/
inductive DrawCmd where
  | rect (pageIndex : ℤ) (x y width height : ℚ) (color : String) (opacity : ℚ)
  | text (pageIndex : ℤ) (content : String) (x y size : ℚ)
  deriving DecidableEq, Repr

/-- The two drawing calls savePDF issues for one highlight (PDFViewer.jsx
lines 187-214): a 200 by 15 rectangle at x 50 and a label at x 55, both at
a vertical offset of 20 points per index of the highlight in the full
highlights list (highlights.indexOf(highlight)), measured down from
height - 100 and height - 95 respectively; the label is the text truncated
to 50 characters.  The page handed to getPage is pageNumber - 1. -/
def drawForHighlight (hs : List Highlight) (h : Highlight) (pageH : ℚ) :
    DrawCmd × DrawCmd :=
  (DrawCmd.rect (h.pageNumber - 1) 50
      (pageH - 100 - (hs.indexOf h : ℚ) * 20) 200 15 h.color (1/2),
   DrawCmd.text (h.pageNumber - 1) (h.text.take 50) 55
      (pageH - 95 - (hs.indexOf h : ℚ) * 20) 8)

/-- The draw commands of a whole export in which every page lookup
succeeds, with H giving each page's height: one command pair per highlight,
in store order. -/
def exportPairs (H : ℤ → ℚ) (hs : List Highlight) :
    List (DrawCmd × DrawCmd) :=
  hs.map (fun h => drawForHighlight hs h (H (h.pageNumber - 1)))

/-- The pdf-lib capability consumed by savePDF, as fallible operations:
loading the document bytes, fetching a page's height by 0-based index
(getPage throws on an out-of-range index), and serializing the document
carrying the issued draw commands back to bytes. -/
structure DocCapability where
  loadDoc : List ℕ → Except Unit Unit
  pageHeight : ℤ → Except Unit ℚ
  save : List (DrawCmd × DrawCmd) → Except Unit (List ℕ)

/-- The export loop over the highlights: look up each highlight's page
height and produce its command pair, stopping at the first failure.  The
source draws onto the in-memory document as it iterates and serializes at
the end; collecting the commands first is observationally the same because
nothing of the document escapes before save. -/
def collectPairsAux (cap : DocCapability) (full : List Highlight) :
    List Highlight → Except Unit (List (DrawCmd × DrawCmd))
  | [] => Except.ok []
  | h :: rest =>
    match cap.pageHeight (h.pageNumber - 1) with
    | Except.error e => Except.error e
    | Except.ok hgt =>
      match collectPairsAux cap full rest with
      | Except.error e => Except.error e
      | Except.ok ps => Except.ok (drawForHighlight full h hgt :: ps)

/-- The export loop started on the full highlight list. -/
def collectPairs (cap : DocCapability) (hs : List Highlight) :
    Except Unit (List (DrawCmd × DrawCmd)) :=
  collectPairsAux cap hs hs

/-- The body of the try block of savePDF (PDFViewer.jsx lines 183-216):
load the bytes, draw every highlight, serialize. -/
def runExport (cap : DocCapability) (bytes : List ℕ)
    (hs : List Highlight) : Except Unit (List ℕ) :=
  match cap.loadDoc bytes with
  | Except.error e => Except.error e
  | Except.ok _ =>
    match collectPairs cap hs with
    | Except.error e => Except.error e
    | Except.ok pairs => cap.save pairs

/-- The observable outcome of savePDF: no document loaded, failure (the
catch branch: an error toast and no download), or a successful download of
the serialized bytes. -/
inductive ExportResult where
  | noDocument
  | failed
  | saved (bytes : List ℕ)
  deriving DecidableEq, Repr

/-- savePDF (PDFViewer.jsx lines 177-232).  The download link is created
and clicked only after save succeeds, inside the try block; any failure
falls to the catch branch, which only shows a toast.  No state cell of the
component is written on either path. -/
def savePDF (s : Session) (cap : DocCapability) : ExportResult × Session :=
  match s.pdfBytes with
  | none => (ExportResult.noDocument, s)
  | some bytes =>
    match runExport cap bytes s.highlights with
    | Except.ok out => (ExportResult.saved out, s)
    | Except.error _ => (ExportResult.failed, s)

/-- The user-triggered events that mutate the session, each carrying the
external inputs its handler reads. -/
inductive Event where
  | load (name : String) (bytes : List ℕ) (pages : ℤ)
  | page (offset : ℤ)
  | zoomIn
  | zoomOut
  | toggle
  | setColor (c : String)
  | select (sel : SelectionInput) (container : Option Rect) (now : ℕ) (rand : ℚ)
  | remove (id : ℚ)
  | navigate (i : ℕ)

/-- One event handled against the current session state.  The navigate
event clicks the i-th sidebar entry, which exists only for stored
highlights. -/
def step (s : Session) : Event → Session
  | Event.load name bytes pages => loadFile s name bytes pages
  | Event.page offset => changePage s offset
  | Event.zoomIn => { s with scale := zoomIn s.scale }
  | Event.zoomOut => { s with scale := zoomOut s.scale }
  | Event.toggle => toggleHighlightMode s
  | Event.setColor c => { s with highlightColor := c }
  | Event.select sel container now rand => handleTextSelect s sel container now rand
  | Event.remove id => removeHighlight s id
  | Event.navigate i =>
    match s.highlights.get? i with
    | some h => navigateToHighlight s h
    | none => s

/-- The session reached from the initial state by a list of events. -/
def run (es : List Event) : Session := es.foldl step initialSession

/-- The record invariant of stored highlights: non-negative clamped
coordinates, width and height at least the 5 pixel capture threshold, and
text that is non-empty after trimming. -/
def GoodHighlight (h : Highlight) : Prop :=
  0 ≤ h.position.x ∧ 0 ≤ h.position.y ∧ 5 ≤ h.position.width ∧
    5 ≤ h.position.height ∧ jsTrim h.text ≠ ""

/-- A selection that passes every capture check: text "hello", one range,
a 40 by 12 rectangle at screen position (110, 210). -/
def sampleSel : SelectionInput :=
  { rawText := "hello", rangeCount := 1, rect := ⟨110, 210, 40, 12⟩ }

/-- A second passing selection, used where two captures are chained. -/
def sampleSel2 : SelectionInput :=
  { rawText := "world", rangeCount := 1, rect := ⟨120, 320, 30, 10⟩ }

/-- A container whose bounding rectangle has origin (10, 10). -/
def sampleContainer : Rect := ⟨10, 10, 600, 900⟩

/-- A capability whose load and page lookups always succeed with page
height 800 and whose save serializes to a fixed byte list. -/
def okCap : DocCapability :=
  { loadDoc := fun _ => Except.ok ()
    pageHeight := fun _ => Except.ok 800
    save := fun _ => Except.ok [1, 2, 3] }

/-- A capability stubbed to fail on save, as in the spec's non-destructive
export scenario. -/
def failSaveCap : DocCapability :=
  { loadDoc := fun _ => Except.ok ()
    pageHeight := fun _ => Except.ok 800
    save := fun _ => Except.error () }

/-- A session with a 3-page document loaded and highlight mode on, zoomed
to scale 2.0. -/
def c1Session : Session :=
  { initialSession with
      file := some "doc.pdf"
      pdfBytes := some []
      numPages := some 3
      isSelecting := true
      scale := 2 }

/-- A selection whose bounding rectangle is 4 pixels wide, below the
capture threshold. -/
def tinySel : SelectionInput :=
  { rawText := "hi", rangeCount := 1, rect := ⟨110, 210, 4, 12⟩ }

/-- Load a 3-page document, enable highlight mode, capture one selection. -/
def cex2Events : List Event :=
  [Event.load "a" [] 3, Event.toggle,
   Event.select sampleSel (some sampleContainer) 0 0]

/-- Two captures in the same millisecond with the same random draw. -/
def cex5Events : List Event :=
  [Event.load "a" [] 3, Event.toggle,
   Event.select sampleSel (some sampleContainer) 5 (1/2),
   Event.select sampleSel2 (some sampleContainer) 5 (1/2)]

/-- Load a 10-page document, go to page 7, capture a highlight there, load
a 5-page document, then click the surviving highlight in the sidebar. -/
def cex6Events : List Event :=
  [Event.load "a" [] 10, Event.page 6, Event.toggle,
   Event.select sampleSel (some sampleContainer) 0 0,
   Event.load "b" [] 5, Event.navigate 0]

/-- A session with one stored highlight and loaded bytes, for exercising
the export path. -/
def c7Session : Session :=
  { initialSession with
      file := some "doc.pdf"
      pdfBytes := some [7]
      numPages := some 3
      highlights := [⟨0, "hello", 1, "#FFFF00", ⟨100, 200, 40, 12⟩⟩] }

/-- A session with a 5-page document loaded, on page 1. -/
def c6Session : Session :=
  { initialSession with
      file := some "doc.pdf"
      pdfBytes := some []
      numPages := some 5 }

/-- First export counterexample highlight, on page 1. -/
def cexH1 : Highlight := ⟨1, "one", 1, "#FFFF00", ⟨100, 200, 40, 12⟩⟩

/-- Second export counterexample highlight, on page 2. -/
def cexH2 : Highlight := ⟨2, "two", 2, "#FFFF00", ⟨100, 300, 40, 12⟩⟩

/-- Third export counterexample highlight, again on page 1: its index in
the full list is 2 but its index within the page-1 list is 1. -/
def cexH3 : Highlight := ⟨3, "three", 1, "#FFFF00", ⟨100, 400, 40, 12⟩⟩

/-- The export counterexample store: pages 1, 2, 1. -/
def cexHs : List Highlight := [cexH1, cexH2, cexH3]

/-- C1: capturing the selection with screen rectangle (110, 210, 40, 12)
in a container with origin (10, 10) while the viewer is zoomed to scale
2.0 stores position (100, 200, 40, 12): the container origin is subtracted
and x, y clamped, but no field is divided by the scale, so the stored
rectangle is not the page-space rectangle (50, 100, 20, 6) the claim
requires; the overlay projection then multiplies it by the current scale
again, so a highlight captured at scale 2.0 is rendered misplaced. -/
theorem capture_position_not_divided_by_scale :
    ((handleTextSelect c1Session sampleSel (some sampleContainer) 0 0).highlights.map
        (fun h => h.position)) = [⟨100, 200, 40, 12⟩] ∧
      toPageSpaceSpec sampleSel.rect sampleContainer 2 = ⟨50, 100, 20, 6⟩ ∧
      (⟨100, 200, 40, 12⟩ : Rect) ≠ ⟨50, 100, 20, 6⟩ := by
  norm_num [handleTextSelect, c1Session, initialSession, sampleSel,
    sampleContainer, capturedPosition, freshId, toPageSpaceSpec,
    show jsTrim "hello" = "hello" from rfl,
    show ("hello" : String) ≠ "" from by decide]

/-- C4: the round trip fails at scale 2: projecting the page-space
rectangle (1, 1, 1, 1) to screen space at scale 2 and back through the
capture-side transform with container origin 0 yields (2, 2, 2, 2), not
the original rectangle, because the capture-side transform never divides
by the scale. -/
theorem roundtrip_fails_at_scale_two :
    overlayRect ⟨1, 1, 1, 1⟩ 2 = ⟨2, 2, 2, 2⟩ ∧
      capturedPosition (overlayRect ⟨1, 1, 1, 1⟩ 2) ⟨0, 0, 0, 0⟩ = ⟨2, 2, 2, 2⟩ ∧
      (⟨2, 2, 2, 2⟩ : Rect) ≠ (⟨1, 1, 1, 1⟩ : Rect) := by
  norm_num [overlayRect, capturedPosition]

/-- C2 (amended): a successful file load resets the current page to 1 and
records the new page count, but leaves the highlight collection exactly as
it was; highlights are not cleared. -/
theorem loadFile_resets_page_keeps_highlights (s : Session) (name : String)
    (bytes : List ℕ) (pages : ℤ) :
    (loadFile s name bytes pages).pageNumber = 1 ∧
      (loadFile s name bytes pages).highlights = s.highlights ∧
      (loadFile s name bytes pages).numPages = some pages := by
  simp [loadFile, onFileChange, onDocumentLoadSuccess]

/-- C2 (counterexample): after creating one highlight and then loading a
new file, the highlight collection still has one element, so its count is
not 0 as the claim requires. -/
theorem loadFile_does_not_clear_highlights :
    (run cex2Events).highlights.length = 1 ∧
      (loadFile (run cex2Events) "b" [] 5).highlights.length ≠ 0 := by
  norm_num [run, cex2Events, step, loadFile, onFileChange,
    onDocumentLoadSuccess, toggleHighlightMode, handleTextSelect,
    initialSession, sampleSel, sampleContainer, capturedPosition, freshId,
    show jsTrim "hello" = "hello" from rfl,
    show ("hello" : String) ≠ "" from by decide]

/-- C8: from any scale in the 0.5 to 3.0 range, one zoom step stays in the
range, the step is exactly 0.2 whenever the result would not cross the
bound, and arbitrarily repeated zooming in never exceeds 3.0 while
arbitrarily repeated zooming out never goes below 0.5. -/
theorem zoom_step_clamped (s : ℚ) (n : ℕ) (h1 : 1/2 ≤ s) (h2 : s ≤ 3) :
    zoomIn s ≤ 3 ∧ 1/2 ≤ zoomIn s ∧ 1/2 ≤ zoomOut s ∧ zoomOut s ≤ 3 ∧
      (s + 1/5 ≤ 3 → zoomIn s = s + 1/5) ∧
      (1/2 ≤ s - 1/5 → zoomOut s = s - 1/5) ∧
      zoomIn^[n] s ≤ 3 ∧ 1/2 ≤ zoomOut^[n] s := by
  have hin : zoomIn^[n] s ≤ 3 := by
    induction n with
    | zero => simpa using h2
    | succ k ih =>
      rw [Function.iterate_succ_apply']
      simp only [zoomIn]
      exact min_le_right _ _
  have hout : 1/2 ≤ zoomOut^[n] s := by
    induction n with
    | zero => simpa using h1
    | succ k ih =>
      rw [Function.iterate_succ_apply']
      simp only [zoomOut]
      exact le_max_right _ _
  refine ⟨min_le_right _ _, le_min (by linarith) (by norm_num),
    le_max_right _ _, max_le (by linarith) (by norm_num),
    fun h => min_eq_left h, fun h => max_eq_left h, hin, hout⟩

/-- C8 (witness): the zoom bounds instantiated at scale 1.0 with 13
repeated steps. -/
theorem zoom_step_clamped_witness :
    zoomIn (1 : ℚ) ≤ 3 ∧ 1/2 ≤ zoomIn (1 : ℚ) ∧ 1/2 ≤ zoomOut (1 : ℚ) ∧
      zoomOut (1 : ℚ) ≤ 3 ∧
      ((1 : ℚ) + 1/5 ≤ 3 → zoomIn (1 : ℚ) = 1 + 1/5) ∧
      ((1 : ℚ)/2 ≤ 1 - 1/5 → zoomOut (1 : ℚ) = 1 - 1/5) ∧
      zoomIn^[13] (1 : ℚ) ≤ 3 ∧ 1/2 ≤ zoomOut^[13] (1 : ℚ) :=
  zoom_step_clamped 1 13 (by norm_num) (by norm_num)

/-- C9: selection capture leaves the session unchanged whenever highlight
mode is off, the selected text trims to empty, the selection has no range,
the container is missing, or the bounding rectangle is under 5 pixels wide
or tall. -/
theorem capture_rejects (s : Session) (sel : SelectionInput)
    (container : Option Rect) (now : ℕ) (rand : ℚ)
    (hrej : s.isSelecting = false ∨ jsTrim sel.rawText = "" ∨
      sel.rangeCount = 0 ∨ container = none ∨
      sel.rect.width < 5 ∨ sel.rect.height < 5) :
    handleTextSelect s sel container now rand = s := by
  rcases hrej with h | h | h | h | h | h <;>
    cases container <;> simp_all [handleTextSelect]

/-- C9 (witness): a 4-pixel-wide selection is rejected even with highlight
mode on and non-empty text. -/
theorem capture_rejects_witness :
    handleTextSelect (toggleHighlightMode initialSession) tinySel
      (some sampleContainer) 0 0 = toggleHighlightMode initialSession :=
  capture_rejects _ _ _ _ _
    (Or.inr (Or.inr (Or.inr (Or.inr (Or.inl (by norm_num [tinySel]))))))

/-- C7: savePDF returns the session unchanged on every path, and a
download is offered only when the whole export pipeline succeeded, in
which case the offered bytes are exactly the complete byte stream produced
by the capability's save; on any failure the outcome carries no bytes. -/
theorem savePDF_nondestructive (s : Session) (cap : DocCapability) :
    (savePDF s cap).2 = s ∧
      ∀ b, (savePDF s cap).1 = ExportResult.saved b →
        ∃ cmds, cap.save cmds = Except.ok b := by
  have hrun : ∀ bytes out, runExport cap bytes s.highlights = Except.ok out →
      ∃ cmds, cap.save cmds = Except.ok out := by
    intro bytes out hre
    unfold runExport at hre
    cases hld : cap.loadDoc bytes with
    | error e => rw [hld] at hre; exact Except.noConfusion hre
    | ok u =>
      rw [hld] at hre
      cases hcp : collectPairs cap s.highlights with
      | error e => rw [hcp] at hre; exact Except.noConfusion hre
      | ok pairs => rw [hcp] at hre; exact ⟨pairs, hre⟩
  cases hpb : s.pdfBytes with
  | none => simp [savePDF, hpb]
  | some bytes =>
    cases hre : runExport cap bytes s.highlights with
    | error e => simp [savePDF, hpb, hre]
    | ok out =>
      have hex : ∃ cmds, cap.save cmds = Except.ok out := hrun bytes out hre
      constructor
      · simp [savePDF, hpb, hre]
      · intro b hb
        have hb' : ExportResult.saved out = ExportResult.saved b := by
          rw [← hb]; simp [savePDF, hpb, hre]
        obtain rfl : out = b := ExportResult.saved.inj hb'
        exact hex

/-- C7 (witness): with the capability stubbed to fail on save, export of a
session holding one highlight reports failure, offers no bytes, and leaves
the session (in particular its highlights) unchanged. -/
theorem savePDF_nondestructive_witness :
    ((savePDF c7Session failSaveCap).2 = c7Session ∧
      ∀ b, (savePDF c7Session failSaveCap).1 = ExportResult.saved b →
        ∃ cmds, failSaveCap.save cmds = Except.ok b) ∧
      (savePDF c7Session failSaveCap).1 = ExportResult.failed :=
  ⟨savePDF_nondestructive c7Session failSaveCap, rfl⟩

/-- C3 (amended): in the export draw-command list, the pair of commands at
position i (for a duplicate-free store) draws the i-th highlight of the
full store at the vertical offsets height - 100 - 20i and height - 95 -
20i: the offset is derived from the highlight's ordinal position in the
global highlight list, not from its position within its page's list and
not from its stored position rectangle. -/
theorem export_offsets_use_global_index (hs : List Highlight) (H : ℤ → ℚ)
    (i : ℕ) (hnd : hs.Nodup) (hi : i < hs.length) :
    (exportPairs H hs).get ⟨i, by simpa [exportPairs] using hi⟩ =
      (DrawCmd.rect ((hs.get ⟨i, hi⟩).pageNumber - 1) 50
          (H ((hs.get ⟨i, hi⟩).pageNumber - 1) - 100 - (i : ℚ) * 20) 200 15
          (hs.get ⟨i, hi⟩).color (1/2),
       DrawCmd.text ((hs.get ⟨i, hi⟩).pageNumber - 1)
          ((hs.get ⟨i, hi⟩).text.take 50) 55
          (H ((hs.get ⟨i, hi⟩).pageNumber - 1) - 95 - (i : ℚ) * 20) 8) := by
  have hmap : (exportPairs H hs).get ⟨i, by simpa [exportPairs] using hi⟩ =
      drawForHighlight hs (hs.get ⟨i, hi⟩)
        (H ((hs.get ⟨i, hi⟩).pageNumber - 1)) := by
    simp [exportPairs]
  rw [hmap, drawForHighlight, List.get_indexOf hnd ⟨i, hi⟩]

set_option maxRecDepth 8000 in
/-- C3 (amended, witness): with all page heights 800, the third highlight
of the counterexample store (global index 2) is drawn at vertical offsets
660 and 665. -/
theorem export_offsets_use_global_index_witness :
    (exportPairs (fun _ => 800) cexHs).get ⟨2, by simp [exportPairs, cexHs]⟩ =
      (DrawCmd.rect 0 50 660 200 15 "#FFFF00" (1/2),
       DrawCmd.text 0 "three" 55 665 8) := by
  rw [export_offsets_use_global_index cexHs (fun _ => 800) 2 (by decide)
    (by decide)]
  norm_num [show cexHs = [cexH1, cexH2, cexH3] from rfl, cexH1, cexH2, cexH3,
    show ("three" : String).take 50 = "three" from rfl]

set_option maxRecDepth 8000 in
/-- C3 (counterexample): in the counterexample store the third highlight
is drawn at vertical offset 660, which comes from its global index 2; its
ordinal position within the page-1 highlight list is 1, and the offset
that position would give, 680, differs from 660. -/
theorem export_offset_not_per_page :
    exportPairs (fun _ => 800) cexHs =
      [(DrawCmd.rect 0 50 700 200 15 "#FFFF00" (1/2),
        DrawCmd.text 0 "one" 55 705 8),
       (DrawCmd.rect 1 50 680 200 15 "#FFFF00" (1/2),
        DrawCmd.text 1 "two" 55 685 8),
       (DrawCmd.rect 0 50 660 200 15 "#FFFF00" (1/2),
        DrawCmd.text 0 "three" 55 665 8)] ∧
      (cexHs.filter (fun h => decide (h.pageNumber = 1))).indexOf cexH3 = 1 ∧
      (800 : ℚ) - 100 - 1 * 20 ≠ 660 := by
  refine ⟨?_, by decide, by norm_num⟩
  norm_num [exportPairs, drawForHighlight,
    show cexHs = [cexH1, cexH2, cexH3] from rfl,
    show [cexH1, cexH2, cexH3].indexOf cexH1 = 0 from by decide,
    show [cexH1, cexH2, cexH3].indexOf cexH2 = 1 from by decide,
    show [cexH1, cexH2, cexH3].indexOf cexH3 = 2 from by decide,
    show cexH1.pageNumber = 1 from rfl, show cexH2.pageNumber = 2 from rfl,
    show cexH3.pageNumber = 1 from rfl,
    show cexH1.color = "#FFFF00" from rfl, show cexH2.color = "#FFFF00" from rfl,
    show cexH3.color = "#FFFF00" from rfl,
    show cexH1.text = "one" from rfl, show cexH2.text = "two" from rfl,
    show cexH3.text = "three" from rfl,
    show ("one" : String).take 50 = "one" from rfl,
    show ("two" : String).take 50 = "two" from rfl,
    show ("three" : String).take 50 = "three" from rfl]

/-- C5 (amended): the id of a new highlight is the millisecond timestamp
plus the random draw; ids are pairwise distinct whenever the timestamps
strictly increase between creations and every random draw lies in the
interval from 0 inclusive to 1 exclusive.  (Two captures in the same
millisecond can collide; see the counterexample.) -/
theorem freshIds_distinct_for_increasing_times {N : ℕ} (t : Fin N → ℕ)
    (r : Fin N → ℚ) (ht : StrictMono t) (hr : ∀ i, 0 ≤ r i ∧ r i < 1) :
    Function.Injective (fun i => freshId (t i) (r i)) := by
  intro i j hij
  have hij' : freshId (t i) (r i) = freshId (t j) (r j) := hij
  have hfl : ∀ k : Fin N, ⌊freshId (t k) (r k)⌋ = (t k : ℤ) := by
    intro k
    have h0 : ⌊r k⌋ = 0 :=
      Int.floor_eq_zero_iff.mpr (Set.mem_Ico.mpr ⟨(hr k).1, (hr k).2⟩)
    rw [freshId, add_comm, Int.floor_add_nat, h0, zero_add]
  have hts : (t i : ℤ) = (t j : ℤ) := by rw [← hfl i, ← hfl j, hij']
  exact ht.injective (by exact_mod_cast hts)

/-- C5 (amended, witness): two creations at strictly increasing
millisecond timestamps 0 and 1, each with random draw one half, receive
distinct ids. -/
theorem freshIds_distinct_for_increasing_times_witness :
    Function.Injective (fun i : Fin 2 => freshId (i : ℕ) (1/2)) :=
  freshIds_distinct_for_increasing_times (fun k : Fin 2 => (k : ℕ))
    (fun _ => 1/2) (fun _ _ hab => hab) (fun _ => ⟨by norm_num, by norm_num⟩)

/-- C5 (counterexample): two captures in the same millisecond with the
same random draw both succeed and store two highlights carrying the same
id, so the assigned ids are not pairwise distinct. -/
theorem ids_collide_in_same_millisecond :
    (run cex5Events).highlights.length = 2 ∧
      ¬ ((run cex5Events).highlights.map (fun h => h.id)).Nodup := by
  norm_num [run, cex5Events, step, loadFile, onFileChange,
    onDocumentLoadSuccess, toggleHighlightMode, handleTextSelect,
    initialSession, sampleSel, sampleSel2, sampleContainer,
    capturedPosition, freshId,
    show jsTrim "hello" = "hello" from rfl,
    show jsTrim "world" = "world" from rfl,
    show ("hello" : String) ≠ "" from by decide,
    show ("world" : String) ≠ "" from by decide]

/-- C6 (amended): with a document of at least one page loaded, changePage
clamps its target into the range from 1 to the page count, for every
offset; clicking a highlight in the sidebar sets the current page to that
highlight's page number with no clamping, so the range invariant is kept
only as long as every stored highlight's page number is in range (which
can fail after loading a document with fewer pages, since highlights
survive loads; see the counterexample). -/
theorem changePage_clamps_navigate_does_not (s : Session) (offset : ℤ)
    (n : ℤ) (hdoc : s.numPages = some n) (hn : 1 ≤ n) :
    (1 ≤ (changePage s offset).pageNumber ∧
      (changePage s offset).pageNumber ≤ n) ∧
      ∀ h : Highlight, (navigateToHighlight s h).pageNumber = h.pageNumber := by
  refine ⟨⟨?_, ?_⟩, fun h => rfl⟩
  · simp only [changePage, hdoc, Option.getD_some]
    exact le_min (le_max_left _ _) hn
  · simp only [changePage, hdoc, Option.getD_some]
    exact min_le_right _ _

/-- C6 (amended, witness): on a 5-page document starting at page 1, the
clamp bounds hold, a target of 99 lands on page 5, and a target of 0
lands on page 1. -/
theorem changePage_clamps_navigate_does_not_witness :
    ((1 ≤ (changePage c6Session 98).pageNumber ∧
      (changePage c6Session 98).pageNumber ≤ 5) ∧
      ∀ h : Highlight,
        (navigateToHighlight c6Session h).pageNumber = h.pageNumber) ∧
      (changePage c6Session 98).pageNumber = 5 ∧
      (changePage c6Session (-1)).pageNumber = 1 :=
  ⟨changePage_clamps_navigate_does_not c6Session 98 5 rfl (by norm_num),
   by decide, by decide⟩

/-- C6 (counterexample): load a 10-page document, move to page 7, capture
a highlight there, load a 5-page document, then click the surviving
highlight in the sidebar: the current page becomes 7 while the loaded
document has 5 pages, so the current page leaves the range from 1 to the
page count. -/
theorem page_invariant_can_break :
    (run cex6Events).numPages = some 5 ∧ (run cex6Events).pageNumber = 7 ∧
      ¬ ((run cex6Events).pageNumber ≤ 5) := by
  norm_num [run, cex6Events, step, loadFile, onFileChange,
    onDocumentLoadSuccess, toggleHighlightMode, handleTextSelect,
    changePage, navigateToHighlight, initialSession, sampleSel,
    sampleContainer, capturedPosition, freshId,
    show jsTrim "hello" = "hello" from rfl,
    show ("hello" : String) ≠ "" from by decide]

/-- Removing the trailing run of a list whose leading run is already gone
cannot create a new leading run: the first element is unchanged (or the
list becomes empty). -/
theorem dropWhile_rdropWhile_eq_self {α : Type} {p : α → Bool} {l : List α}
    (h : l.dropWhile p = l) : (l.rdropWhile p).dropWhile p = l.rdropWhile p := by
  rw [List.dropWhile_eq_self_iff] at h ⊢
  intro hl
  have hpre := List.rdropWhile_prefix p l
  have hl2 : 0 < l.length := lt_of_lt_of_le hl hpre.length_le
  have hget : (l.rdropWhile p).get ⟨0, hl⟩ = l.get ⟨0, hl2⟩ := by
    simpa using hpre.getElem hl
  rw [hget]
  exact h hl2

/-- The modelled JavaScript trim is idempotent: trimming a trimmed string
changes nothing. -/
theorem jsTrim_idem (s : String) : jsTrim (jsTrim s) = jsTrim s := by
  show String.mk (List.rdropWhile isWs (List.dropWhile isWs
      (List.rdropWhile isWs (List.dropWhile isWs s.data)))) =
    String.mk (List.rdropWhile isWs (List.dropWhile isWs s.data))
  rw [dropWhile_rdropWhile_eq_self (List.dropWhile_idempotent isWs s.data),
    List.rdropWhile_idempotent]

/-- C10: every highlight held in the store of any session reachable from
the initial state has clamped non-negative coordinates, width and height
at least 5, and text that is non-empty after trimming: capture establishes
the invariant and every other operation, deletion included, preserves the
surviving records unchanged. -/
theorem highlights_always_good (es : List Event) (h : Highlight)
    (hmem : h ∈ (run es).highlights) : GoodHighlight h := by
  suffices H : ∀ (l : List Event) (s : Session),
      (∀ h2 ∈ s.highlights, GoodHighlight h2) →
      ∀ h2 ∈ (l.foldl step s).highlights, GoodHighlight h2 by
    exact H es initialSession (by simp [initialSession]) h hmem
  intro l
  induction l with
  | nil => intro s hs; simpa using hs
  | cons e rest ih =>
    intro s hs
    simp only [List.foldl_cons]
    refine ih (step s e) ?_
    cases e with
    | load name bytes pages =>
      simpa [step, loadFile, onFileChange, onDocumentLoadSuccess] using hs
    | page offset => simpa [step, changePage] using hs
    | zoomIn => simpa [step] using hs
    | zoomOut => simpa [step] using hs
    | toggle => simpa [step, toggleHighlightMode] using hs
    | setColor c => simpa [step] using hs
    | remove id =>
      intro h2 hm
      simp only [step, removeHighlight, List.mem_filter] at hm
      exact hs h2 hm.1
    | navigate i =>
      intro h2 hm
      cases hg : s.highlights.get? i with
      | some hh =>
        simp only [step, hg, navigateToHighlight] at hm
        exact hs h2 hm
      | none =>
        simp only [step, hg] at hm
        exact hs h2 hm
    | select sel container now rand =>
      intro h2 hm
      simp only [step, handleTextSelect] at hm
      split at hm
      · exact hs h2 hm
      · split at hm
        · exact hs h2 hm
        · split at hm
          · exact hs h2 hm
          · split at hm
            · exact hs h2 hm
            · rename_i c
              split at hm
              · exact hs h2 hm
              · rename_i hsize
                simp only [List.mem_append, List.mem_singleton] at hm
                rcases hm with hmem | he
                · exact hs h2 hmem
                · subst he
                  push_neg at hsize
                  refine ⟨le_max_left _ _, le_max_left _ _, hsize.1,
                    hsize.2, ?_⟩
                  show jsTrim (jsTrim sel.rawText) ≠ ""
                  rw [jsTrim_idem]
                  assumption

/-- C10 (witness): the highlight produced by the capture in the sample
trace satisfies the store invariant. -/
theorem highlights_always_good_witness :
    GoodHighlight ⟨0, "hello", 1, "#FFFF00", ⟨100, 200, 40, 12⟩⟩ :=
  highlights_always_good cex2Events _ (by
    norm_num [run, cex2Events, step, loadFile, onFileChange,
      onDocumentLoadSuccess, toggleHighlightMode, handleTextSelect,
      initialSession, sampleSel, sampleContainer, capturedPosition, freshId,
      show jsTrim "hello" = "hello" from rfl,
      show ("hello" : String) ≠ "" from by decide])

end EDP
